import Mathlib

/-
  Verification of the finstatement statement parser
  (finstatement/parser.py, class StatementParser).

  The development shallowly embeds the extraction pipeline:
    - a small backtracking regular-expression engine covering exactly the
      constructs used by the Python patterns (case-insensitive literals,
      single-character classes with greedy or lazy counted repetition,
      alternation, optional groups, capture groups, a lookahead and the
      end-of-text anchor), with Python re.search / re.finditer semantics
      (leftmost match, non-overlapping iteration);
    - the pattern tables of StatementParser, transliterated pattern by
      pattern from the source;
    - the date and number normalization (datetime.strptime with the
      formats the source tries, float() on the token sublanguage the
      amount patterns can produce), over exact rational numbers;
    - the field extractors, the transaction strategies, the categorizer
      and the confidence scorer.

  datetime.now() is modelled by an explicit parameter, so every pipeline
  function takes the current date as its first argument.
-/

namespace FinStat

/-! ## Characters and character classes -/

/-- Whitespace characters recognized by a Python regex class with a
backslash-s item (ASCII range). -/
def wsChar (c : Char) : Bool :=
  c == ' ' || c == '\t' || c == '\n' || c == '\r' || c == '\x0b' || c == '\x0c'

/-- Decimal digit. -/
def digitChar (c : Char) : Bool := c.isDigit

/-- Apostrophe character (code 39), written by code point. -/
def apos : Char := Char.ofNat 39

/-- Double quote character (code 34), written by code point. -/
def dquote : Char := Char.ofNat 34

/-! ## Regular expression syntax

Only the constructs appearing in the parser patterns are represented.
Every repetition in those patterns applies to a single-character class,
which is what the rep constructor captures. -/

inductive RE where
  /-- Empty regex, matches the empty string. -/
  | eps : RE
  /-- A single character satisfying the predicate. -/
  | cls (p : Char → Bool) : RE
  /-- Concatenation. -/
  | seq (a b : RE) : RE
  /-- Alternation; the left branch is tried first, as in Python. -/
  | alt (a b : RE) : RE
  /-- Optional (greedy question mark): presence is tried first. -/
  | opt (a : RE) : RE
  /-- Counted repetition of a single-character class: at least lo
  characters, at most hi when hi is given.  When lzy is false the
  longest repetition is tried first (greedy), otherwise the shortest
  (lazy). -/
  | rep (p : Char → Bool) (lo : Nat) (hi : Option Nat) (lzy : Bool) : RE
  /-- Capture group with index i. -/
  | grp (i : Nat) (a : RE) : RE
  /-- Zero-width lookahead. -/
  | look (a : RE) : RE
  /-- Dollar anchor: end of text, or just before a final newline. -/
  | eos : RE

/-- Captured groups: association list from group index to captured text,
most recent capture first. -/
abbrev Caps := List (Nat × List Char)

/-- Interpretation of bounded repetition: the candidate numbers of
consumed characters, in the order backtracking tries them. -/
def repCounts (lo : Nat) (hi : Option Nat) (lzy : Bool) (run : Nat) : List Nat :=
  let m := match hi with | some h => min h run | none => run
  if lo ≤ m then
    if lzy then (List.range (m - lo + 1)).map (lo + ·)
    else ((List.range (m - lo + 1)).map (lo + ·)).reverse
  else []

/-- Length of the maximal prefix of s whose characters satisfy p. -/
def classRun (p : Char → Bool) : List Char → Nat
  | [] => 0
  | c :: t => if p c then classRun p t + 1 else 0

/-- Try the continuation after consuming each candidate count of
characters, in order. -/
def tryCounts (s : List Char) (caps : Caps)
    (k : List Char → Caps → Option (List Char × Caps)) :
    List Nat → Option (List Char × Caps)
  | [] => none
  | n :: ns =>
    match k (s.drop n) caps with
    | some r => some r
    | none => tryCounts s caps k ns

/-- Backtracking matcher in continuation style.  The continuation
receives the remaining input and the captures; the result carries the
final remaining input and captures of the first overall success, in
the same order a Python backtracking engine tries candidates. -/
def reMat : RE → List Char → Caps →
    (List Char → Caps → Option (List Char × Caps)) → Option (List Char × Caps)
  | .eps, s, caps, k => k s caps
  | .cls p, s, caps, k =>
    match s with
    | [] => none
    | c :: t => if p c then k t caps else none
  | .seq a b, s, caps, k => reMat a s caps (fun s' caps' => reMat b s' caps' k)
  | .alt a b, s, caps, k =>
    match reMat a s caps k with
    | some r => some r
    | none => reMat b s caps k
  | .opt a, s, caps, k =>
    match reMat a s caps k with
    | some r => some r
    | none => k s caps
  | .rep p lo hi lzy, s, caps, k =>
    tryCounts s caps k (repCounts lo hi lzy (classRun p s))
  | .grp i a, s, caps, k =>
    reMat a s caps (fun s' caps' =>
      k s' ((i, s.take (s.length - s'.length)) :: caps'))
  | .look a, s, caps, k =>
    match reMat a s caps (fun s' caps' => some (s', caps')) with
    | some (_, caps') => k s caps'
    | none => none
  | .eos, s, caps, k =>
    if s.isEmpty || s == ['\n'] then k s caps else none

/-- Result of a successful search: start position, match length and
captured groups. -/
structure MatchRes where
  start : Nat
  len : Nat
  caps : Caps
deriving Repr, DecidableEq

/-- Try to match the regex at the head of the input. -/
def reMatchHere (r : RE) (s : List Char) : Option (Nat × Caps) :=
  match reMat r s [] (fun s' caps => some (s', caps)) with
  | some (s', caps) => some (s.length - s'.length, caps)
  | none => none

/-- Scan for the leftmost position where the regex matches, as
re.search does. -/
def reSearchAux (r : RE) : Nat → List Char → Option MatchRes
  | pos, s =>
    match reMatchHere r s with
    | some (len, caps) => some ⟨pos, len, caps⟩
    | none =>
      match s with
      | [] => none
      | _ :: t => reSearchAux r (pos + 1) t

/-- Python re.search on the character list. -/
def reSearch (r : RE) (s : List Char) : Option MatchRes := reSearchAux r 0 s

/-- Python re.search viewed as a Boolean test. -/
def reTest (r : RE) (s : List Char) : Bool := (reSearch r s).isSome

/-- Group lookup on a match (the empty string when the group is
absent; the patterns used here always bind their groups). -/
def capStr (m : MatchRes) (i : Nat) : List Char :=
  match m.caps.find? (fun p => p.1 == i) with
  | some p => p.2
  | none => []

/-- Non-overlapping iteration of matches with their absolute start
positions, as re.finditer yields them; after a match the scan resumes
at its end (one character further for an empty match). -/
def finditerAux (r : RE) : Nat → Nat → List Char → List (Nat × MatchRes)
  | 0, _, _ => []
  | fuel + 1, pos, s =>
    match reSearchAux r 0 s with
    | none => []
    | some m =>
      (pos + m.start, m) ::
        finditerAux r fuel (pos + (m.start + max m.len 1))
          (s.drop (m.start + max m.len 1))

/-- Python re.finditer with absolute match positions. -/
def finditer (r : RE) (s : List Char) : List (Nat × MatchRes) :=
  finditerAux r (s.length + 1) 0 s

/-! ## Pattern construction helpers -/

/-- Concatenation of a list of regexes. -/
def rseq (l : List RE) : RE := l.foldr RE.seq RE.eps

/-- Alternation of a list of regexes, tried left to right. -/
def raltL (l : List RE) : RE :=
  match l with
  | [] => RE.eps
  | [r] => r
  | r :: t => RE.alt r (raltL t)

/-- Case-insensitive single character (the argument is given in lower
case); models a literal character under the IGNORECASE flag. -/
def ciChar (c : Char) : RE := RE.cls (fun x => x.toLower == c)

/-- Case-sensitive single character. -/
def chr (c : Char) : RE := RE.cls (fun x => x == c)

/-- Case-insensitive literal word (argument written in lower case). -/
def lit (w : String) : RE := rseq (w.toList.map ciChar)

/-- One or more whitespace characters (a backslash-s with a plus). -/
def ws1 : RE := RE.rep wsChar 1 none false

/-- Zero or more whitespace characters (a backslash-s with a star). -/
def ws0 : RE := RE.rep wsChar 0 none false

/-- Exactly n digits. -/
def dRep (n : Nat) : RE := RE.rep digitChar n (some n) false

/-- One or two digits (a backslash-d with a 1,2 counter). -/
def d12 : RE := RE.rep digitChar 1 (some 2) false

/-- Two to four digits (a backslash-d with a 2,4 counter). -/
def d24 : RE := RE.rep digitChar 2 (some 4) false

/-- Optional colon (the colon-question mark idiom of the patterns). -/
def optColon : RE := RE.opt (chr ':')

/-! ## Institution patterns

Transliteration of StatementParser.institution_patterns, in declaration
order.  All patterns carry the inline IGNORECASE flag. -/

def chaseRE : RE := RE.alt (lit "chase") (lit "jpmorgan chase")

def bofaRE : RE :=
  RE.alt (rseq [lit "bank", ws1, lit "of", ws1, lit "america"]) (lit "bofa")

def wellsfargoRE : RE := rseq [lit "wells", ws1, lit "fargo"]

def citiRE : RE := rseq [lit "citi", RE.opt (lit "bank")]

def amexRE : RE := RE.alt (rseq [lit "american", ws1, lit "express"]) (lit "amex")

def discoverRE : RE := rseq [lit "discover", ws1, lit "card"]

def capitaloneRE : RE := rseq [lit "capital", ws1, lit "one"]

def usbankRE : RE :=
  rseq [ciChar 'u', RE.opt (chr '.'), ciChar 's', RE.opt (chr '.'), ws1, lit "bank"]

def pncRE : RE := rseq [lit "pnc", ws1, lit "bank"]

def tdbankRE : RE := rseq [lit "td", ws1, lit "bank"]

def regionsRE : RE := rseq [lit "regions", ws1, lit "bank"]

def suntrustRE : RE := RE.alt (lit "suntrust") (lit "truist")

def barclaysRE : RE := lit "barclays"

def allyRE : RE := rseq [lit "ally", ws1, lit "bank"]

def schwabRE : RE := rseq [lit "charles", ws1, lit "schwab"]

def fidelityRE : RE := lit "fidelity"

def vanguardRE : RE := lit "vanguard"

/-- The ordered institution pattern table of StatementParser. -/
def institutionPatterns : List (String × RE) :=
  [("chase", chaseRE), ("bofa", bofaRE), ("wellsfargo", wellsfargoRE),
   ("citi", citiRE), ("amex", amexRE), ("discover", discoverRE),
   ("capitalone", capitaloneRE), ("usbank", usbankRE), ("pnc", pncRE),
   ("tdbank", tdbankRE), ("regions", regionsRE), ("suntrust", suntrustRE),
   ("barclays", barclaysRE), ("ally", allyRE), ("schwab", schwabRE),
   ("fidelity", fidelityRE), ("vanguard", vanguardRE)]

/-! ## Statement type patterns (detect_statement_type) -/

def creditCueRE : RE :=
  raltL [rseq [lit "credit", ws1, lit "card"],
         rseq [lit "credit", ws1, lit "account"],
         lit "apr",
         rseq [lit "cash", ws1, lit "advance"]]

def bankCueRE : RE :=
  raltL [lit "checking", lit "savings",
         rseq [lit "bank", ws1, lit "statement"],
         lit "deposit", lit "atm", lit "withdraw"]

def investmentCueRE : RE :=
  raltL [lit "investment", lit "portfolio", lit "securities",
         lit "brokerage", lit "fund", lit "stock", lit "bond"]

/-! ## Account information patterns (extract_account_info) -/

/-- Class of colon, dot or whitespace. -/
def colonDotWs (c : Char) : Bool := c == ':' || c == '.' || wsChar c

/-- Class of the mask characters star, x, X. -/
def maskChar (c : Char) : Bool := c == '*' || c == 'x' || c == 'X'

/-- First masked account number pattern: the word account, whitespace,
an optional number, hash or no, one or more of colon, dot or
whitespace, one or more mask characters, then four captured digits. -/
def acctPat1 : RE :=
  rseq [lit "account", ws1,
        RE.opt (raltL [lit "number", chr '#', lit "no"]),
        RE.rep colonDotWs 1 none false,
        RE.rep maskChar 1 none false,
        RE.grp 1 (dRep 4)]

/-- Second masked account number pattern: the word account, whitespace,
an optional ending or hash, whitespace, an optional in or with,
whitespace, then four captured digits. -/
def acctPat2 : RE :=
  rseq [lit "account", ws1,
        RE.opt (RE.alt (lit "ending") (chr '#')), ws1,
        RE.opt (RE.alt (lit "in") (lit "with")), ws1,
        RE.grp 1 (dRep 4)]

/-- Third masked account number pattern: the word acct, whitespace, one
or more mask characters, then four captured digits. -/
def acctPat3 : RE :=
  rseq [lit "acct", ws1, RE.rep maskChar 1 none false, RE.grp 1 (dRep 4)]

/-- The ordered masked account number pattern list. -/
def accountPatterns : List RE := [acctPat1, acctPat2, acctPat3]

/-- Class of an upper case letter range under IGNORECASE, or
whitespace. -/
def alphaWs (c : Char) : Bool := c.isAlpha || wsChar c

/-- First holder name pattern. -/
def namePat1 : RE :=
  rseq [lit "account", ws1, lit "name", optColon, ws1,
        RE.grp 1 (RE.rep alphaWs 1 none false)]

/-- Second holder name pattern. -/
def namePat2 : RE :=
  rseq [lit "primary", ws1, lit "account", ws1, lit "holder", optColon, ws1,
        RE.grp 1 (RE.rep alphaWs 1 none false)]

/-- The ordered holder name pattern list. -/
def namePatterns : List RE := [namePat1, namePat2]

/-! ## Period patterns (extract_period) -/

/-- The date token of the period patterns, one or two digits, slash,
one or two digits, slash, two to four digits, captured as group i. -/
def periodDateTok (i : Nat) : RE :=
  RE.grp i (rseq [d12, chr '/', d12, chr '/', d24])

def periodPat1 : RE :=
  rseq [lit "statement", ws1, lit "period", optColon, ws1, periodDateTok 1,
        ws1, RE.alt (lit "to") (lit "through"), ws1, periodDateTok 2]

def periodPat2 : RE :=
  rseq [lit "from", ws1, periodDateTok 1, ws1, lit "to", ws1, periodDateTok 2]

def periodPat3 : RE :=
  rseq [lit "billing", ws1, lit "period", optColon, ws1, periodDateTok 1,
        ws1, RE.alt (lit "to") (lit "through"), ws1, periodDateTok 2]

/-- Class of the dash separator characters of the fourth period
pattern.  The source file stores the range dash together with three
mojibake characters (the UTF-8 bytes of an en dash read back in a
different encoding), so the class holds exactly those characters. -/
def periodDash (c : Char) : Bool :=
  c == '-' || c == Char.ofNat 0xe2 || c == Char.ofNat 0x20ac || c == Char.ofNat 0x201c

def periodPat4 : RE :=
  rseq [RE.alt (lit "period") (lit "cycle"),
        RE.opt (rseq [ws1, lit "covered"]), optColon, ws1, periodDateTok 1,
        ws0, RE.cls periodDash, ws0, periodDateTok 2]

/-- The ordered period pattern list. -/
def periodPatterns : List RE := [periodPat1, periodPat2, periodPat3, periodPat4]

/-! ## Balance patterns (extract_balance) -/

/-- Class of a digit or comma. -/
def digitComma (c : Char) : Bool := c.isDigit || c == ','

/-- The captured currency amount of the balance patterns: an optional
dollar sign, one or more digits or commas, a dot, two digits. -/
def balAmountGrp : RE :=
  RE.grp 1 (rseq [RE.opt (chr '$'), RE.rep digitComma 1 none false,
                  chr '.', dRep 2])

/-- A balance phrase pattern: the given words, optional colon,
whitespace, then the captured amount. -/
def balPhrase (ws : List String) : RE :=
  rseq ((ws.map lit).intersperse ws1 ++ [optColon, ws1, balAmountGrp])

def closingBalPat1 : RE := balPhrase ["closing", "balance"]

def closingBalPat2 : RE := balPhrase ["ending", "balance"]

def closingBalPat3 : RE := balPhrase ["new", "balance"]

def closingBalPat4 : RE := balPhrase ["balance", "forward"]

/-- The closing balance patterns tried for every statement type, in
order; the source list holds the new balance phrasing here already. -/
def closingBasePatterns : List RE :=
  [closingBalPat1, closingBalPat2, closingBalPat3, closingBalPat4]

def ccBalPatNew : RE := balPhrase ["new", "balance"]

def ccBalPatTotal : RE := balPhrase ["total", "balance"]

def ccBalPatStatement : RE := balPhrase ["statement", "balance"]

/-- The extra closing balance patterns appended for credit card
statements. -/
def closingCreditExtras : List RE := [ccBalPatNew, ccBalPatTotal, ccBalPatStatement]

/-- The closing balance pattern list actually tried for a statement
type: the base list, extended for credit cards. -/
def closingPatternsFor (ty : String) : List RE :=
  closingBasePatterns ++ (if ty = "credit_card" then closingCreditExtras else [])

def openingBalPat1 : RE := balPhrase ["opening", "balance"]

def openingBalPat2 : RE := balPhrase ["previous", "balance"]

def openingBalPat3 : RE := balPhrase ["beginning", "balance"]

/-- Fourth opening pattern: balance from or as of last statement. -/
def openingBalPat4 : RE :=
  rseq [lit "balance", ws1, RE.alt (lit "from") (lit "as of"), ws1,
        lit "last", ws1, lit "statement", optColon, ws1, balAmountGrp]

/-- The ordered opening balance pattern list. -/
def openingPatterns : List RE :=
  [openingBalPat1, openingBalPat2, openingBalPat3, openingBalPat4]

/-! ## Transaction section narrowing (extract_transactions) -/

def txHeader1 : RE := rseq [lit "transaction", RE.opt (ciChar 's')]

def txHeader2 : RE := rseq [lit "account", ws1, lit "activity"]

def txHeader3 : RE :=
  rseq [lit "payments", ws1, lit "and", ws1,
        RE.opt (rseq [lit "other", ws1]), lit "credits"]

def txHeader4 : RE :=
  rseq [lit "purchases", ws1, lit "and", ws1,
        RE.opt (rseq [lit "other", ws1]), lit "charges"]

/-- The ordered transaction section header list. -/
def txHeaders : List RE := [txHeader1, txHeader2, txHeader3, txHeader4]

/-- Section terminator lookahead: one of the terminating keywords, or
the dollar anchor, under IGNORECASE. -/
def txTerminator : RE :=
  raltL [lit "summary", lit "total", lit "balance", lit "statement",
         lit "information", RE.eos]

/-- Section pattern for a header: the header, a lazy any-character run
(DOTALL) up to the terminator lookahead. -/
def txSectionRE (h : RE) : RE :=
  rseq [h, RE.rep (fun _ => true) 0 none true, RE.look txTerminator]

/-- Narrow the text to the transaction-bearing span: the first header
whose section pattern matches wins, otherwise the whole text. -/
def txSection (text : List Char) : List Char :=
  match txHeaders.findSome? (fun h => reSearch (txSectionRE h) text) with
  | some m => (text.drop m.start).take m.len
  | none => text

/-! ## Transaction line patterns -/

/-- Description class of the institution-specific transaction patterns:
letters, digits, whitespace, dot, comma, ampersand, apostrophe, double
quote and dash. -/
def descChar (c : Char) : Bool :=
  c.isAlpha || c.isDigit || wsChar c || c == '.' || c == ',' || c == '&' ||
  c == apos || c == dquote || c == '-'

/-- Description class of the generic transaction pattern, which also
admits parentheses. -/
def descCharGen (c : Char) : Bool := descChar c || c == '(' || c == ')'

/-- Amount token of the specific strategies: optional sign, mandatory
dollar sign, digits or commas, dot, two digits; captured as group 3. -/
def amountGrpSpecific : RE :=
  RE.grp 3 (rseq [RE.opt (RE.cls (fun c => c == '-' || c == '+')), chr '$',
                  RE.rep digitComma 1 none false, chr '.', dRep 2])

/-- Amount token of the generic strategy: the dollar sign is optional. -/
def amountGrpGeneric : RE :=
  RE.grp 3 (rseq [RE.opt (RE.cls (fun c => c == '-' || c == '+')),
                  RE.opt (chr '$'),
                  RE.rep digitComma 1 none false, chr '.', dRep 2])

/-- Chase credit card line: a two-digit slash two-digit date, the lazy
description, the signed dollar amount. -/
def chaseTxPat : RE :=
  rseq [RE.grp 1 (rseq [dRep 2, chr '/', dRep 2]), ws1,
        RE.grp 2 (RE.rep descChar 1 none true), ws1, amountGrpSpecific]

/-- Bank of America and American Express line: a full date with a two
to four digit year, the lazy description, the signed dollar amount. -/
def fullDateTxPat : RE :=
  rseq [RE.grp 1 (rseq [dRep 2, chr '/', dRep 2, chr '/', d24]), ws1,
        RE.grp 2 (RE.rep descChar 1 none true), ws1, amountGrpSpecific]

/-- Generic slash date token: one or two digits, slash, one or two
digits, optional slash year. -/
def genSlashDate : RE :=
  RE.grp 1 (rseq [d12, chr '/', d12, RE.opt (rseq [chr '/', d24])])

/-- Generic dash date token. -/
def genDashDate : RE :=
  RE.grp 1 (rseq [d12, chr '-', d12, RE.opt (rseq [chr '-', d24])])

/-- Generic transaction pattern for a given date token shape. -/
def genTxPat (dateTok : RE) : RE :=
  rseq [dateTok, ws1, RE.grp 2 (RE.rep descCharGen 1 none true), ws1,
        amountGrpGeneric]

/-! ## Category patterns (category_patterns and categorize_transaction) -/

def diningRE : RE :=
  raltL ([ "restaurant", "dining", "food", "cafe", "coffee", "starbucks",
           "mcdonalds", "chipotle", "pizza", "burger", "taco", "sushi"].map lit)

def groceryRE : RE :=
  raltL ([ "grocery", "groceries", "supermarket", "market", "food",
           "whole foods", "trader", "safeway", "kroger", "albertsons",
           "wegmans", "publix"].map lit)

def transportationRE : RE :=
  raltL ([ "uber", "lyft", "taxi", "cab", "transport", "transit", "metro",
           "subway", "train", "bus", "airline", "flight", "gas", "fuel",
           "chevron", "shell", "exxon"].map lit)

def shoppingRE : RE :=
  raltL ([ "amazon", "ebay", "walmart", "target", "costco", "shop", "store",
           "retail", "outlet", "mall", "clothing", "apparel"].map lit)

def utilitiesRE : RE :=
  raltL ([ "utility", "utilities", "electric", "water", "gas", "power",
           "energy", "cable", "internet", "phone", "mobile", "wireless",
           "verizon", "at&t", "t-mobile"].map lit)

def entertainmentRE : RE :=
  raltL ([ "netflix", "hulu", "spotify", "apple", "google", "movie",
           "theater", "cinema", "concert", "ticket", "entertainment"].map lit)

def healthRE : RE :=
  raltL ([ "medical", "doctor", "pharmacy", "drug", "health", "healthcare",
           "hospital", "clinic", "dental", "vision", "insurance"].map lit)

def personalRE : RE :=
  raltL ([ "salon", "spa", "beauty", "barber", "hair", "nail", "gym",
           "fitness"].map lit)

def homeRE : RE :=
  raltL ([ "home", "apartment", "rent", "lease", "mortgage", "furniture",
           "decor", "improvement", "repair", "maintenance"].map lit)

def subscriptionRE : RE :=
  raltL ([ "subscription", "recurring", "monthly", "annual", "membership",
           "prime", "fee"].map lit)

def incomeRE : RE :=
  raltL ([ "deposit", "direct deposit", "salary", "payroll",
           "payment received", "income", "revenue"].map lit)

def transferRE : RE :=
  raltL ([ "transfer", "zelle", "venmo", "paypal", "cash app", "wire",
           "ach"].map lit)

def withdrawalRE : RE :=
  raltL ([ "withdrawal", "atm", "cash"].map lit)

/-- The ordered category pattern table. -/
def categoryPatterns : List (String × RE) :=
  [("dining", diningRE), ("grocery", groceryRE),
   ("transportation", transportationRE), ("shopping", shoppingRE),
   ("utilities", utilitiesRE), ("entertainment", entertainmentRE),
   ("health", healthRE), ("personal", personalRE), ("home", homeRE),
   ("subscription", subscriptionRE), ("income", incomeRE),
   ("transfer", transferRE), ("withdrawal", withdrawalRE)]

/-! ## Dates

datetime values are modelled by their calendar date; the pipeline never
inspects the time of day.  datetime.now() becomes an explicit
parameter. -/

/-- A calendar date standing in for a Python datetime. -/
structure Date where
  year : Int
  month : Nat
  day : Nat
deriving Repr, DecidableEq

/-- Gregorian leap year test, as datetime uses. -/
def isLeap (y : Int) : Bool := y % 4 == 0 && (y % 100 != 0 || y % 400 == 0)

/-- Number of days of a month. -/
def daysInMonth (y : Int) (m : Nat) : Nat :=
  if m == 2 then (if isLeap y then 29 else 28)
  else if m == 4 || m == 6 || m == 9 || m == 11 then 30
  else 31

/-- Numeric value of a digit string. -/
def digitsVal : List Char → Nat → Nat
  | [], acc => acc
  | c :: t, acc => digitsVal t (acc * 10 + (c.toNat - 48))

/-- All characters are digits. -/
def allDigits (l : List Char) : Bool := l.all digitChar

/-- Split a character list on a separator character. -/
def splitOnChar (sep : Char) : List Char → List (List Char)
  | [] => [[]]
  | c :: t =>
    let r := splitOnChar sep t
    if c == sep then [] :: r
    else
      match r with
      | [] => [[c]]
      | h :: t' => (c :: h) :: t'

/-- The month field of strptime: one or two digits with value one to
twelve (the regex strptime compiles for a percent-m directive). -/
def monthField (l : List Char) : Option Nat :=
  if l ≠ [] && l.length ≤ 2 && allDigits l then
    let v := digitsVal l 0
    if 1 ≤ v && v ≤ 12 then some v else none
  else none

/-- The day field of strptime: one or two digits with value one to
thirty-one; the datetime constructor then checks the month length. -/
def dayField (l : List Char) : Option Nat :=
  if l ≠ [] && l.length ≤ 2 && allDigits l then
    let v := digitsVal l 0
    if 1 ≤ v && v ≤ 31 then some v else none
  else none

/-- The four-digit year field of a percent-Y directive; year zero is
rejected by the datetime constructor. -/
def yearField4 (l : List Char) : Option Int :=
  if l.length == 4 && allDigits l then
    let v := digitsVal l 0
    if 1 ≤ v then some (Int.ofNat v) else none
  else none

/-- The two-digit year field of a percent-y directive, with the POSIX
century rule strptime applies. -/
def yearField2 (l : List Char) : Option Int :=
  if l.length == 2 && allDigits l then
    let v := digitsVal l 0
    some (Int.ofNat (if v ≤ 68 then 2000 + v else 1900 + v))
  else none

/-- Final day-of-month validation the datetime constructor performs. -/
def mkDate (y : Int) (m d : Nat) : Option Date :=
  if 1 ≤ d && d ≤ daysInMonth y m then some ⟨y, m, d⟩ else none

/-- strptime with a month, day, four-digit-year format separated by the
given character. -/
def strptimeMDY (sep : Char) (s : List Char) : Option Date :=
  match splitOnChar sep s with
  | [mf, df, yf] => do
    let m ← monthField mf
    let d ← dayField df
    let y ← yearField4 yf
    mkDate y m d
  | _ => none

/-- strptime with a month, day, two-digit-year format. -/
def strptimeMDy (sep : Char) (s : List Char) : Option Date :=
  match splitOnChar sep s with
  | [mf, df, yf] => do
    let m ← monthField mf
    let d ← dayField df
    let y ← yearField2 yf
    mkDate y m d
  | _ => none

/-- strptime of the string built by appending the separator and the
current year to a month-day token, against the four-digit-year format;
the year renders as four digits exactly when it lies between 1000 and
9999. -/
def strptimeMDCurYear (sep : Char) (s : List Char) (year : Int) : Option Date :=
  match splitOnChar sep s with
  | [mf, df] => do
    let m ← monthField mf
    let d ← dayField df
    if 1000 ≤ year && year ≤ 9999 then mkDate year m d else none
  | _ => none

/-! ## Amount normalization -/

/-- Remove every dollar sign and comma, as the two replace calls do. -/
def stripDollarCommas (l : List Char) : List Char :=
  l.filter (fun c => !(c == '$' || c == ','))

/-- Python float() restricted to the sign, digits and single dot
sublanguage that the amount patterns can produce after stripping, as
an exact rational.  The value of a sign, an integer part a and a
fractional part b of k digits is the normalized fraction with
numerator sign times (a times ten to the k plus b) and denominator
ten to the k. -/
def pyFloat (l : List Char) : Option Rat :=
  let (sgn, rest) :=
    match l with
    | '+' :: t => ((1 : Int), t)
    | '-' :: t => ((-1 : Int), t)
    | t => ((1 : Int), t)
  match splitOnChar '.' rest with
  | [a] =>
    if a ≠ [] && allDigits a then some (mkRat (sgn * digitsVal a 0) 1) else none
  | [a, b] =>
    if (a ≠ [] || b ≠ []) && allDigits a && allDigits b then
      some (mkRat (sgn * (digitsVal a 0 * 10 ^ b.length + digitsVal b 0)) (10 ^ b.length))
    else none
  | _ => none

/-- Strip then parse, the normalization applied to every matched
amount token. -/
def parseAmount (l : List Char) : Option Rat := pyFloat (stripDollarCommas l)

/-- The American Express amount rule: a stripped token that does not
start with a minus sign is stored negated, one that does is stored as
parsed. -/
def amexAmount (l : List Char) : Option Rat :=
  let t := stripDollarCommas l
  if t.head? == some '-' then pyFloat t else (pyFloat t).map (fun v => -v)

/-! ## Data model -/

/-- Account information record. -/
structure AccountInfo where
  number : String
  name : Option String
  institution : String
  type : String
deriving Repr, DecidableEq

/-- Statement period record. -/
structure Period where
  start : Date
  stop : Date
deriving Repr, DecidableEq

/-- Balance record. -/
structure Balance where
  closing : Rat
  opening : Option Rat
deriving Repr, DecidableEq

/-- Transaction record. -/
structure Transaction where
  date : Date
  description : String
  amount : Rat
  balance : Option Rat
  category : Option String
deriving Repr, DecidableEq

/-- Confidence map with its five fixed keys. -/
structure Confidence where
  account_info : Rat
  period : Rat
  balance : Rat
  transactions : Rat
  overall : Rat
deriving Repr, DecidableEq

/-- Assembled parse result. -/
structure StatementResult where
  account_info : AccountInfo
  period : Period
  balance : Balance
  transactions : List Transaction
  confidence : Confidence
deriving Repr, DecidableEq

/-! ## Classifiers -/

/-- detect_institution: first institution of the ordered table whose
pattern occurs in the text, otherwise unknown. -/
def detectInstitution (text : String) : String :=
  match institutionPatterns.find? (fun p => reTest p.2 text.data) with
  | some p => p.1
  | none => "unknown"

/-- detect_statement_type: credit card, bank and investment cues tried
in that order. -/
def detectStatementType (text : String) : String :=
  if reTest creditCueRE text.data then "credit_card"
  else if reTest bankCueRE text.data then "bank"
  else if reTest investmentCueRE text.data then "investment"
  else "unknown"

/-! ## Field extractors -/

/-- Python str.strip on a character list (whitespace both ends). -/
def pyStrip (l : List Char) : List Char :=
  ((l.dropWhile (fun c => wsChar c)).reverse.dropWhile (fun c => wsChar c)).reverse

/-- extract_account_info: the masked number and holder name patterns
run only for bank and credit card statements; institution and type are
copied through. -/
def extractAccountInfo (text : String) (institution statementType : String) :
    AccountInfo :=
  if statementType = "bank" ∨ statementType = "credit_card" then
    { number :=
        match accountPatterns.findSome? (fun p => reSearch p text.data) with
        | some m => "xxxx-xxxx-xxxx-" ++ String.mk (capStr m 1)
        | none => "Unknown"
      name :=
        (namePatterns.findSome? (fun p => reSearch p text.data)).map
          (fun m => String.mk (pyStrip (capStr m 1)))
      institution := institution
      type := statementType }
  else
    { number := "Unknown", name := none,
      institution := institution, type := statementType }

/-- Parse one captured period date: four-digit-year format first, then
two-digit, then the current timestamp as fallback. -/
def periodDate (now : Date) (s : List Char) : Date :=
  match strptimeMDY '/' s with
  | some d => d
  | none =>
    match strptimeMDy '/' s with
    | some d => d
    | none => now

/-- extract_period: first period pattern that matches wins; no match
falls back to the first day of the current month and the current
timestamp. -/
def extractPeriod (now : Date) (text : String) : Period :=
  match periodPatterns.findSome? (fun p => reSearch p text.data) with
  | some m => ⟨periodDate now (capStr m 1), periodDate now (capStr m 2)⟩
  | none => ⟨⟨now.year, now.month, 1⟩, now⟩

/-- The closing balance loop of extract_balance: first matching pattern
of the list for the statement type, normalized; default zero.  A float
failure would propagate as in Python, hence the Except result. -/
def closingBalance (text : String) (ty : String) : Except Unit Rat :=
  match (closingPatternsFor ty).findSome? (fun p => reSearch p text.data) with
  | some m =>
    match parseAmount (capStr m 1) with
    | some v => .ok v
    | none => .error ()
  | none => .ok 0

/-- The opening balance loop of extract_balance: first matching pattern
wins; no match leaves the opening balance absent. -/
def openingBalance (text : String) : Except Unit (Option Rat) :=
  match openingPatterns.findSome? (fun p => reSearch p text.data) with
  | some m =>
    match parseAmount (capStr m 1) with
    | some v => .ok (some v)
    | none => .error ()
  | none => .ok none

/-- extract_balance. -/
def extractBalance (text : String) (institution ty : String) :
    Except Unit Balance :=
  match closingBalance text ty, openingBalance text with
  | .ok c, .ok o => .ok ⟨c, o⟩
  | _, _ => .error ()

/-! ## Categorizer -/

/-- categorize_transaction: first category of the ordered table whose
pattern occurs in the description; then the deposit or credit
heuristic assigns income; otherwise no category. -/
def categorizeTransaction (description : List Char) : Option String :=
  match categoryPatterns.find? (fun p => reTest p.2 description) with
  | some p => some p.1
  | none =>
    if reTest (lit "deposit") description || reTest (lit "credit") description then
      some "income"
    else none

/-! ## Transaction strategies -/

/-- Date of a Chase credit card line: the current year is appended to
the month-day token and parsed; a failure is an uncaught exception. -/
def chaseTxDate (now : Date) (s : List Char) : Option Date :=
  strptimeMDCurYear '/' s now.year

/-- Date of a Bank of America or American Express line: four-digit
year first, two-digit fallback; both failing is an uncaught
exception. -/
def fullTxDate (s : List Char) : Option Date :=
  match strptimeMDY '/' s with
  | some d => some d
  | none => strptimeMDy '/' s

/-- One Chase match turned into a transaction; a date or amount
failure aborts the whole extraction. -/
def chaseTx (now : Date) (m : MatchRes) : Except Unit Transaction :=
  match chaseTxDate now (capStr m 1), parseAmount (capStr m 3) with
  | some d, some a =>
    .ok ⟨d, String.mk (pyStrip (capStr m 2)), a, none, none⟩
  | _, _ => .error ()

/-- One Bank of America match turned into a transaction. -/
def bofaTx (m : MatchRes) : Except Unit Transaction :=
  match fullTxDate (capStr m 1), parseAmount (capStr m 3) with
  | some d, some a =>
    .ok ⟨d, String.mk (pyStrip (capStr m 2)), a, none, none⟩
  | _, _ => .error ()

/-- One American Express match turned into a transaction, with the
sign flip applied to the amount token. -/
def amexTx (m : MatchRes) : Except Unit Transaction :=
  match fullTxDate (capStr m 1), amexAmount (capStr m 3) with
  | some d, some a =>
    .ok ⟨d, String.mk (pyStrip (capStr m 2)), a, none, none⟩
  | _, _ => .error ()

/-- Generic date handling: slash or dash separator chosen by the token,
year component parsed with both formats when present and the current
year assumed otherwise; every failure falls back to the current
timestamp. -/
def genericTxDate (now : Date) (s : List Char) : Date :=
  if s.contains '/' then
    if (splitOnChar '/' s).length > 2 then
      match strptimeMDY '/' s with
      | some d => d
      | none => (strptimeMDy '/' s).getD now
    else (strptimeMDCurYear '/' s now.year).getD now
  else
    if (splitOnChar '-' s).length > 2 then
      match strptimeMDY '-' s with
      | some d => d
      | none => (strptimeMDy '-' s).getD now
    else (strptimeMDCurYear '-' s now.year).getD now

/-- One generic match turned into a transaction; an unparsable amount
skips this candidate only, and the trimmed description is
categorized. -/
def genericTx (now : Date) (m : MatchRes) : Option Transaction :=
  match parseAmount (capStr m 3) with
  | none => none
  | some a =>
    some ⟨genericTxDate now (capStr m 1), String.mk (pyStrip (capStr m 2)), a,
          none, categorizeTransaction (pyStrip (capStr m 2))⟩

/-- The generic strategy: one full pass with the slash date shape, then
one full pass with the dash date shape, appended in that order. -/
def genericPass (now : Date) (dateTok : RE) (sec : List Char) :
    List Transaction :=
  (finditer (genTxPat dateTok) sec).filterMap (fun pm => genericTx now pm.2)

/-- extract_transactions: strategy dispatch on institution and
statement type over the narrowed section. -/
def extractTransactions (now : Date) (text : String)
    (institution statementType : String) : Except Unit (List Transaction) :=
  if institution = "chase" ∧ statementType = "credit_card" then
    (finditer chaseTxPat (txSection text.data)).mapM (fun pm => chaseTx now pm.2)
  else if institution = "bofa" ∧ statementType = "bank" then
    (finditer fullDateTxPat (txSection text.data)).mapM (fun pm => bofaTx pm.2)
  else if institution = "amex" ∧ statementType = "credit_card" then
    (finditer fullDateTxPat (txSection text.data)).mapM (fun pm => amexTx pm.2)
  else
    .ok (genericPass now genSlashDate (txSection text.data) ++
         genericPass now genDashDate (txSection text.data))

/-! ## Confidence scoring and assembly -/

/-- Account info entry of the confidence map. -/
def confAccount (acct : AccountInfo) : Rat :=
  if acct.number ≠ "Unknown" then 9/10 else 3/10

/-- Period entry of the confidence map: the default period, recognized
by its start being the first day of the current month and year, scores
three tenths, everything else nine tenths. -/
def confPeriod (now : Date) (per : Period) : Rat :=
  if per.start.year = now.year ∧ per.start.month = now.month ∧ per.start.day = 1
  then 3/10 else 9/10

/-- Balance entry of the confidence map. -/
def confBalance (bal : Balance) : Rat :=
  if bal.opening.isSome then 8/10 else 5/10

/-- Transactions entry of the confidence map. -/
def confTransactions (txs : List Transaction) : Rat :=
  if 0 < txs.length then min (9/10) (3/10 + txs.length * (2/100)) else 1/10

/-- calculate_confidence: the four field scores and their arithmetic
mean. -/
def calculateConfidence (now : Date) (acct : AccountInfo) (per : Period)
    (bal : Balance) (txs : List Transaction) : Confidence :=
  ⟨confAccount acct, confPeriod now per, confBalance bal, confTransactions txs,
   (confAccount acct + confPeriod now per + confBalance bal +
    confTransactions txs) / 4⟩

/-- The parse pipeline on already-acquired text: detection, the four
extractors, confidence scoring and assembly; an uncaught extraction
exception propagates. -/
def parseText (now : Date) (text : String) : Except Unit StatementResult :=
  let institution := detectInstitution text
  let statementType := detectStatementType text
  let acct := extractAccountInfo text institution statementType
  let per := extractPeriod now text
  match extractBalance text institution statementType,
        extractTransactions now text institution statementType with
  | .ok bal, .ok txs =>
    .ok ⟨acct, per, bal, txs, calculateConfidence now acct per bal txs⟩
  | _, _ => .error ()

/-! ## General lemmas about the searching combinators -/

/-- Every position produced by the finditer worker is at least the
base position. -/
theorem finditerAux_pos_le (r : RE) :
    ∀ (fuel pos : Nat) (s : List Char) (x : Nat × MatchRes),
      x ∈ finditerAux r fuel pos s → pos ≤ x.1 := by
  intro fuel
  induction fuel with
  | zero => intro pos s x hx; simp [finditerAux] at hx
  | succ n ih =>
    intro pos s x hx
    unfold finditerAux at hx
    cases hs : reSearchAux r 0 s with
    | none => rw [hs] at hx; simp at hx
    | some m =>
      rw [hs] at hx
      rcases List.mem_cons.mp hx with h | h
      · subst h; exact Nat.le_add_right _ _
      · have := ih _ _ _ h
        omega

/-- The absolute match positions iterated by finditer are strictly
increasing: matches are reported in order of appearance, and the
iteration is non-overlapping. -/
theorem finditerAux_chain (r : RE) :
    ∀ (fuel pos : Nat) (s : List Char),
      List.Chain' (· < ·) ((finditerAux r fuel pos s).map Prod.fst) := by
  intro fuel
  induction fuel with
  | zero => intro pos s; simp [finditerAux]
  | succ n ih =>
    intro pos s
    unfold finditerAux
    cases hs : reSearchAux r 0 s with
    | none => simp
    | some m =>
      simp only [List.map_cons]
      rw [List.chain'_cons']
      refine ⟨?_, ih _ _⟩
      intro b hb
      rw [List.head?_map] at hb
      rcases Option.map_eq_some'.mp hb with ⟨y, hy, rfl⟩
      have hmem : y ∈ finditerAux r n (pos + (m.start + max m.len 1))
          (s.drop (m.start + max m.len 1)) := List.mem_of_mem_head? hy
      have := finditerAux_pos_le r n _ _ y hmem
      have h1 : 1 ≤ max m.len 1 := Nat.le_max_right _ _
      omega

/-- First-match characterization of an ordered pattern scan: if entry
k of the list satisfies the predicate, then find? returns the entry at
the least satisfying index, which is at most k. -/
theorem find?_first_match {α : Type} (p : α → Bool) :
    ∀ (l : List α) (k : Nat) (hk : k < l.length),
      p (l.get ⟨k, hk⟩) = true →
      ∃ m, ∃ hm : m < l.length, m ≤ k ∧ p (l.get ⟨m, hm⟩) = true ∧
        (∀ j (hj : j < l.length), j < m → p (l.get ⟨j, hj⟩) = false) ∧
        l.find? p = some (l.get ⟨m, hm⟩) := by
  intro l
  induction l with
  | nil => intro k hk; exact absurd hk (Nat.not_lt_zero k)
  | cons a t ih =>
    intro k hk hp
    cases hpa : p a with
    | true =>
      refine ⟨0, Nat.succ_pos _, Nat.zero_le _, hpa, ?_, ?_⟩
      · intro j hj hj0; exact absurd hj0 (Nat.not_lt_zero j)
      · simp [List.find?_cons_of_pos, hpa]
    | false =>
      cases k with
      | zero => rw [List.get] at hp; rw [hpa] at hp; exact absurd hp (by simp)
      | succ k' =>
        have hk' : k' < t.length := Nat.lt_of_succ_lt_succ hk
        have hp' : p (t.get ⟨k', hk'⟩) = true := hp
        rcases ih k' hk' hp' with ⟨m, hm, hmk, hpm, hmin, hfind⟩
        refine ⟨m + 1, Nat.succ_lt_succ hm, Nat.succ_le_succ hmk, hpm, ?_, ?_⟩
        · intro j hj hjm
          cases j with
          | zero => exact hpa
          | succ j' =>
            exact hmin j' (Nat.lt_of_succ_lt_succ hj) (Nat.lt_of_succ_lt_succ hjm)
        · rw [List.find?_cons_of_neg _ (by simp [hpa])]
          exact hfind

/-! ## Fixtures for the concrete scenarios -/

/-- A fixed current date used by the concrete scenarios. -/
def d0 : Date := ⟨2025, 6, 10⟩

/-- Text whose Amex-format line carries an explicitly plus-signed
amount token. -/
def amexPlusText : String := "AMEX Credit Card\n01/02/2023 PAYMENT 12 +$25.00"

/-- Text with an unsigned and a minus-signed Amex-format line. -/
def amexTwoText : String :=
  "AMEX Credit Card\n01/02/2023 ALPHA 12 $25.00\n01/03/2023 BRAVO 34 -$25.00"

/-- Chase credit card text whose matched date token is not a valid
date. -/
def chaseBadDateText : String := "CHASE Credit Card\n13/45 BAD $5.00"

/-- Bank of America bank text whose matched date token parses in
neither tried format. -/
def bofaBadDateText : String := "BOFA Bank Statement\n13/45/2023 BAD $5.00"

/-- American Express credit card text whose matched date token parses
in neither tried format. -/
def amexBadDateText : String := "AMEX Credit Card\n13/45/23 BAD $5.00"

/-- The end-to-end scenario text of the specification. -/
def wholefdsText : String := "01/15 WHOLEFDS ABC 12345 -$50.00"

/-- Text with a masked account number phrasing but no statement type
cue. -/
def acctNoTypeText : String := "Account no. ****1234"

/-- Text with a new balance phrasing and no credit card cue. -/
def newBalanceText : String := "New Balance: $100.00"

/-- Text with a dash-dated line before a slash-dated line. -/
def mixedOrderText : String := "01-02 AAA $1.00\n03/04 BBB $2.00"

/-- The sentinel the text-acquisition collaborator substitutes on
failure. -/
def sentinelText : String := "ERROR: Unable to extract text from PDF"

deriving instance DecidableEq for Except

/-! ## Claim C6 -/

/-- C6: the institution classifier tests the fixed pattern table in
declaration order and returns the id of the first matching
institution, unknown when no pattern matches; a text matching both
the chase and bofa patterns classifies as chase. -/
theorem institution_first_match (t : String) :
    ((∀ pr ∈ institutionPatterns, reTest pr.2 t.data = false) →
      detectInstitution t = "unknown") ∧
    (∀ k, ∀ hk : k < institutionPatterns.length,
      reTest (institutionPatterns.get ⟨k, hk⟩).2 t.data = true →
      ∃ m, ∃ hm : m < institutionPatterns.length, m ≤ k ∧
        reTest (institutionPatterns.get ⟨m, hm⟩).2 t.data = true ∧
        (∀ j, ∀ hj : j < institutionPatterns.length, j < m →
          reTest (institutionPatterns.get ⟨j, hj⟩).2 t.data = false) ∧
        detectInstitution t = (institutionPatterns.get ⟨m, hm⟩).1) ∧
    (reTest chaseRE "CHASE Bank of America".data = true ∧
     reTest bofaRE "CHASE Bank of America".data = true ∧
     detectInstitution "CHASE Bank of America" = "chase") := by
  refine ⟨?_, ?_, by decide, by decide, by decide⟩
  · intro h
    unfold detectInstitution
    rw [List.find?_eq_none.mpr (fun x hx => by simp [h x hx])]
  · intro k hk hp
    rcases find?_first_match (fun pr => reTest pr.2 t.data)
        institutionPatterns k hk hp with ⟨m, hm, hmk, hpm, hmin, hfind⟩
    refine ⟨m, hm, hmk, hpm, hmin, ?_⟩
    unfold detectInstitution
    rw [hfind]

/-- Witness for C6 at concrete inputs. -/
theorem institution_first_match_witness :
    ((∀ pr ∈ institutionPatterns, reTest pr.2 "zzzz".data = false) ∧
      detectInstitution "zzzz" = "unknown") ∧
    (∃ m, ∃ hm : m < institutionPatterns.length, m ≤ 0 ∧
      reTest (institutionPatterns.get ⟨m, hm⟩).2 "CHASE Bank of America".data = true ∧
      (∀ j, ∀ hj : j < institutionPatterns.length, j < m →
        reTest (institutionPatterns.get ⟨j, hj⟩).2 "CHASE Bank of America".data = false) ∧
      detectInstitution "CHASE Bank of America" = (institutionPatterns.get ⟨m, hm⟩).1) :=
  ⟨⟨by decide, (institution_first_match "zzzz").1 (by decide)⟩,
   (institution_first_match "CHASE Bank of America").2.1 0 (by decide) (by decide)⟩

/-! ## Claim C7 -/

/-- C7: the confidence map follows the reference definition: the
transactions score is one tenth on an empty list and otherwise the
minimum of nine tenths and three tenths plus two hundredths per
transaction, hence two fifths at five transactions and nine tenths
from fifty transactions on; account info scores nine tenths exactly
when the number is resolved; balance scores eight tenths exactly when
an opening balance is present; overall is the arithmetic mean of the
four field scores. -/
theorem confidence_spec (now : Date) (acct : AccountInfo) (per : Period)
    (bal : Balance) (txs : List Transaction) :
    (calculateConfidence now acct per bal txs).transactions =
      (if txs.length = 0 then (1 : Rat)/10
       else min ((9 : Rat)/10) (3/10 + (txs.length : Rat) * (2/100))) ∧
    (calculateConfidence now acct per bal txs).account_info =
      (if acct.number = "Unknown" then 3/10 else 9/10) ∧
    (calculateConfidence now acct per bal txs).balance =
      (if bal.opening.isSome then 8/10 else 5/10) ∧
    (calculateConfidence now acct per bal txs).overall =
      ((calculateConfidence now acct per bal txs).account_info +
       (calculateConfidence now acct per bal txs).period +
       (calculateConfidence now acct per bal txs).balance +
       (calculateConfidence now acct per bal txs).transactions) / 4 ∧
    (txs.length = 5 → (calculateConfidence now acct per bal txs).transactions = 2/5) ∧
    (50 ≤ txs.length → (calculateConfidence now acct per bal txs).transactions = 9/10) := by
  refine ⟨?_, ?_, ?_, rfl, ?_, ?_⟩
  · show confTransactions txs = _
    unfold confTransactions
    by_cases h : txs.length = 0
    · rw [if_neg (by omega), if_pos h]
    · rw [if_pos (by omega), if_neg h]
  · show confAccount acct = _
    unfold confAccount
    by_cases h : acct.number = "Unknown"
    · rw [if_neg (by simp [h]), if_pos h]
    · rw [if_pos h, if_neg h]
  · show confBalance bal = _
    unfold confBalance
    rfl
  · intro h5
    show confTransactions txs = _
    unfold confTransactions
    rw [if_pos (by omega), h5]
    rw [min_eq_right (by norm_num)]
    norm_num
  · intro h50
    show confTransactions txs = _
    unfold confTransactions
    rw [if_pos (by omega)]
    rw [min_eq_left ?_]
    have hc : (50 : Rat) ≤ txs.length := by exact_mod_cast h50
    linarith

/-- Witness for C7 at concrete inputs: the empty list, a list of five
transactions and a list of fifty transactions. -/
theorem confidence_spec_witness :
    ((List.replicate 5 (⟨d0, "t", 1, none, none⟩ : Transaction)).length = 5 ∧
      (calculateConfidence d0 ⟨"Unknown", none, "unknown", "unknown"⟩
        ⟨d0, d0⟩ ⟨0, none⟩
        (List.replicate 5 (⟨d0, "t", 1, none, none⟩ : Transaction))).transactions = 2/5) ∧
    (50 ≤ (List.replicate 50 (⟨d0, "t", 1, none, none⟩ : Transaction)).length ∧
      (calculateConfidence d0 ⟨"Unknown", none, "unknown", "unknown"⟩
        ⟨d0, d0⟩ ⟨0, none⟩
        (List.replicate 50 (⟨d0, "t", 1, none, none⟩ : Transaction))).transactions = 9/10) :=
  ⟨⟨by decide,
    (confidence_spec d0 ⟨"Unknown", none, "unknown", "unknown"⟩ ⟨d0, d0⟩ ⟨0, none⟩
      (List.replicate 5 ⟨d0, "t", 1, none, none⟩)).2.2.2.2.1 (by decide)⟩,
   ⟨by decide,
    (confidence_spec d0 ⟨"Unknown", none, "unknown", "unknown"⟩ ⟨d0, d0⟩ ⟨0, none⟩
      (List.replicate 50 ⟨d0, "t", 1, none, none⟩)).2.2.2.2.2 (by decide)⟩⟩

/-! ## Claim C8 -/

/-- C8: when no period phrasing matches, the extracted period is the
first day of the current month paired with the current timestamp; the
confidence scorer assigns exactly three tenths to a period whose start
is the first day of the current month and year and nine tenths
otherwise, so the default period scores three tenths. -/
theorem default_period_confidence (now : Date) (t : String) (acct : AccountInfo)
    (per : Period) (bal : Balance) (txs : List Transaction) :
    ((∀ p ∈ periodPatterns, reSearch p t.data = none) →
      extractPeriod now t = ⟨⟨now.year, now.month, 1⟩, now⟩) ∧
    ((calculateConfidence now acct per bal txs).period =
      if per.start.year = now.year ∧ per.start.month = now.month ∧ per.start.day = 1
      then 3/10 else 9/10) ∧
    ((∀ p ∈ periodPatterns, reSearch p t.data = none) →
      (calculateConfidence now acct (extractPeriod now t) bal txs).period = 3/10) := by
  have hdef : (∀ p ∈ periodPatterns, reSearch p t.data = none) →
      extractPeriod now t = ⟨⟨now.year, now.month, 1⟩, now⟩ := by
    intro h
    unfold extractPeriod
    rw [List.findSome?_eq_none_iff.mpr h]
  refine ⟨hdef, rfl, ?_⟩
  intro h
  rw [hdef h]
  show confPeriod now ⟨⟨now.year, now.month, 1⟩, now⟩ = 3/10
  unfold confPeriod
  rw [if_pos ⟨rfl, rfl, rfl⟩]

/-- Witness for C8 at a concrete date and text with no period
phrasing. -/
theorem default_period_confidence_witness :
    (∀ p ∈ periodPatterns, reSearch p "hello".data = none) ∧
    extractPeriod d0 "hello" = ⟨⟨2025, 6, 1⟩, d0⟩ ∧
    (calculateConfidence d0 ⟨"Unknown", none, "unknown", "unknown"⟩
      (extractPeriod d0 "hello") ⟨0, none⟩ []).period = 3/10 :=
  ⟨by decide,
   (default_period_confidence d0 "hello" ⟨"Unknown", none, "unknown", "unknown"⟩
      ⟨d0, d0⟩ ⟨0, none⟩ []).1 (by decide),
   (default_period_confidence d0 "hello" ⟨"Unknown", none, "unknown", "unknown"⟩
      ⟨d0, d0⟩ ⟨0, none⟩ []).2.2 (by decide)⟩

/-! ## Claim C10 -/

/-- C10: the full pipeline on the literal acquisition-failure sentinel
does not raise and yields the fully-defaulted result: unknown
institution and type, unknown account number with absent name, the
default current-month period, closing balance zero with opening
absent, no transactions, and the corresponding confidence values. -/
theorem sentinel_fully_defaulted (now : Date) :
    parseText now sentinelText =
      .ok ⟨⟨"Unknown", none, "unknown", "unknown"⟩,
           ⟨⟨now.year, now.month, 1⟩, now⟩,
           ⟨0, none⟩, [],
           ⟨3/10, 3/10, 5/10, 1/10, 3/10⟩⟩ := by
  have e0 : parseText now sentinelText =
      .ok ⟨⟨"Unknown", none, "unknown", "unknown"⟩,
           ⟨⟨now.year, now.month, 1⟩, now⟩, ⟨0, none⟩, [],
           calculateConfidence now ⟨"Unknown", none, "unknown", "unknown"⟩
             ⟨⟨now.year, now.month, 1⟩, now⟩ ⟨0, none⟩ []⟩ := rfl
  rw [e0]
  have hc : calculateConfidence now ⟨"Unknown", none, "unknown", "unknown"⟩
      ⟨⟨now.year, now.month, 1⟩, now⟩ ⟨0, none⟩ [] =
      ⟨3/10, 3/10, 5/10, 1/10, 3/10⟩ := by
    unfold calculateConfidence confAccount confPeriod confBalance confTransactions
    rw [if_neg (by simp), if_pos ⟨rfl, rfl, rfl⟩, if_neg (by simp), if_neg (by simp)]
    simp only [Confidence.mk.injEq]
    norm_num
  rw [hc]

/-! ## Claim C1 -/

/-- C1 counterexample: on a text classified as amex and credit card, a
matched amount token with an explicit plus sign is not stored as
given: the token with value plus twenty-five is stored as minus
twenty-five. -/
theorem amex_sign_flip_counterexample :
    detectInstitution amexPlusText = "amex" ∧
    detectStatementType amexPlusText = "credit_card" ∧
    extractTransactions d0 amexPlusText "amex" "credit_card" =
      .ok [⟨⟨2023, 1, 2⟩, "PAYMENT 12", -25, none, none⟩] ∧
    ((-25 : Rat) ≠ 25) :=
  ⟨by decide, by decide, by decide, by decide⟩

/-- C1 amended: in the amex credit card strategy, a stripped amount
token that does not start with a minus sign, hence also one with an
explicit plus sign, is stored as the negation of its parsed value; a
token starting with a minus sign is stored as parsed.  On a concrete
text, an unsigned token and a minus-signed token of the same magnitude
are both stored as minus twenty-five. -/
theorem amex_sign_flip_amended :
    (∀ (l : List Char) (v : Rat), pyFloat (stripDollarCommas l) = some v →
      (stripDollarCommas l).head? ≠ some '-' → amexAmount l = some (-v)) ∧
    (∀ (l : List Char) (v : Rat), pyFloat (stripDollarCommas l) = some v →
      (stripDollarCommas l).head? = some '-' → amexAmount l = some v) ∧
    (∀ now : Date, extractTransactions now amexTwoText "amex" "credit_card" =
      .ok [⟨⟨2023, 1, 2⟩, "ALPHA 12", -25, none, none⟩,
           ⟨⟨2023, 1, 3⟩, "BRAVO 34", -25, none, none⟩]) := by
  refine ⟨?_, ?_, fun now => rfl⟩
  · intro l v hv hne
    unfold amexAmount
    rw [if_neg (by simp [hne]), hv]
    rfl
  · intro l v hv he
    unfold amexAmount
    rw [if_pos (by simp [he]), hv]

/-- Witness for C1 amended, discharging the hypotheses on the plus
signed and minus signed tokens of the counterexample. -/
theorem amex_sign_flip_amended_witness :
    (pyFloat (stripDollarCommas "+$25.00".data) = some 25 ∧
      (stripDollarCommas "+$25.00".data).head? ≠ some '-' ∧
      amexAmount "+$25.00".data = some (-25)) ∧
    (pyFloat (stripDollarCommas "-$25.00".data) = some (-25) ∧
      (stripDollarCommas "-$25.00".data).head? = some '-' ∧
      amexAmount "-$25.00".data = some (-25)) :=
  ⟨⟨by decide, by decide,
    amex_sign_flip_amended.1 "+$25.00".data 25 (by decide) (by decide)⟩,
   ⟨by decide, by decide,
    amex_sign_flip_amended.2.1 "-$25.00".data (-25) (by decide) (by decide)⟩⟩

/-! ## Claim C2 -/

/-- C2 counterexample: in each of the three institution-specific
strategies, a text whose matched date token parses in no tried format
makes the whole extraction raise instead of falling back to the
current timestamp. -/
theorem tx_error_handling_counterexample :
    (detectInstitution chaseBadDateText = "chase" ∧
     detectStatementType chaseBadDateText = "credit_card" ∧
     reTest chaseTxPat chaseBadDateText.data = true ∧
     parseText d0 chaseBadDateText = .error ()) ∧
    (detectInstitution bofaBadDateText = "bofa" ∧
     detectStatementType bofaBadDateText = "bank" ∧
     reTest fullDateTxPat bofaBadDateText.data = true ∧
     parseText d0 bofaBadDateText = .error ()) ∧
    (detectInstitution amexBadDateText = "amex" ∧
     detectStatementType amexBadDateText = "credit_card" ∧
     reTest fullDateTxPat amexBadDateText.data = true ∧
     parseText d0 amexBadDateText = .error ()) :=
  ⟨⟨by decide, by decide, by decide, by decide⟩,
   ⟨by decide, by decide, by decide, by decide⟩,
   ⟨by decide, by decide, by decide, by decide⟩⟩

/-- C2 amended: only the generic strategy is total: for any
institution and type outside the three specific pairings the
extraction returns a list, its date helper falls back to the current
timestamp whenever every tried format fails, in particular on the
tokens thirteen slash forty-five with or without a year, and an
unparsable amount token skips only that one candidate.  The three
institution-specific strategies propagate a date parse failure,
aborting the extraction. -/
theorem tx_error_handling_amended :
    (∀ (now : Date) (text : String) (inst ty : String),
      ¬(inst = "chase" ∧ ty = "credit_card") →
      ¬(inst = "bofa" ∧ ty = "bank") →
      ¬(inst = "amex" ∧ ty = "credit_card") →
      ∃ l, extractTransactions now text inst ty = .ok l) ∧
    (∀ (now : Date) (m : MatchRes),
      parseAmount (capStr m 3) = none → genericTx now m = none) ∧
    (∀ now : Date, genericTxDate now ('1' :: '3' :: '/' :: '4' :: '5' :: []) = now) ∧
    (∀ now : Date,
      genericTxDate now
        ('1' :: '3' :: '/' :: '4' :: '5' :: '/' :: '2' :: '0' :: '2' :: '3' :: []) = now) ∧
    (∀ (now : Date) (s : List Char), s.contains '/' = true →
      (splitOnChar '/' s).length > 2 →
      strptimeMDY '/' s = none → strptimeMDy '/' s = none →
      genericTxDate now s = now) ∧
    (∀ (now : Date) (s : List Char), s.contains '/' = true →
      ¬((splitOnChar '/' s).length > 2) →
      strptimeMDCurYear '/' s now.year = none →
      genericTxDate now s = now) ∧
    (∀ (now : Date) (m : MatchRes),
      chaseTxDate now (capStr m 1) = none → chaseTx now m = .error ()) ∧
    (∀ m : MatchRes, fullTxDate (capStr m 1) = none → bofaTx m = .error ()) ∧
    (∀ m : MatchRes, fullTxDate (capStr m 1) = none → amexTx m = .error ()) := by
  refine ⟨?_, ?_, fun now => rfl, fun now => rfl, ?_, ?_, ?_, ?_, ?_⟩
  · intro now text inst ty h1 h2 h3
    unfold extractTransactions
    rw [if_neg h1, if_neg h2, if_neg h3]
    exact ⟨_, rfl⟩
  · intro now m h
    unfold genericTx
    rw [h]
  · intro now s hc hl hY hy
    unfold genericTxDate
    rw [if_pos hc, if_pos hl, hY, hy]
    rfl
  · intro now s hc hl hcur
    unfold genericTxDate
    rw [if_pos hc, if_neg hl, hcur]
    rfl
  · intro now m h
    unfold chaseTx
    rw [h]
  · intro m h
    unfold bofaTx
    rw [h]
  · intro m h
    unfold amexTx
    rw [h]

/-- Witness for C2 amended at concrete inputs. -/
theorem tx_error_handling_amended_witness :
    (¬("unknown" = "chase" ∧ "unknown" = "credit_card") ∧
      ∃ l, extractTransactions d0 "no lines" "unknown" "unknown" = .ok l) ∧
    (parseAmount (capStr ⟨0, 0, []⟩ 3) = none ∧
      genericTx d0 ⟨0, 0, []⟩ = none) ∧
    genericTxDate d0 ('1' :: '3' :: '/' :: '4' :: '5' :: []) = d0 ∧
    (chaseTxDate d0 (capStr ⟨0, 0, []⟩ 1) = none ∧
      chaseTx d0 ⟨0, 0, []⟩ = .error ()) ∧
    (fullTxDate (capStr ⟨0, 0, []⟩ 1) = none ∧
      bofaTx ⟨0, 0, []⟩ = .error () ∧
      amexTx ⟨0, 0, []⟩ = .error ()) :=
  ⟨⟨by decide,
    tx_error_handling_amended.1 d0 "no lines" "unknown" "unknown"
      (by decide) (by decide) (by decide)⟩,
   ⟨by decide, tx_error_handling_amended.2.1 d0 ⟨0, 0, []⟩ (by decide)⟩,
   tx_error_handling_amended.2.2.1 d0,
   ⟨by decide, tx_error_handling_amended.2.2.2.2.2.2.1 d0 ⟨0, 0, []⟩ (by decide)⟩,
   ⟨by decide,
    tx_error_handling_amended.2.2.2.2.2.2.2.1 ⟨0, 0, []⟩ (by decide),
    tx_error_handling_amended.2.2.2.2.2.2.2.2 ⟨0, 0, []⟩ (by decide)⟩⟩

/-! ## Claim C3 -/

/-- Helper for C3: parsing the month-day token zero-one slash one-five
with the current year appended succeeds for any four-digit year and
yields January fifteenth of that year. -/
theorem strptime_0115 (y : Int) (h1 : 1000 ≤ y) (h2 : y ≤ 9999) :
    strptimeMDCurYear '/' ('0' :: '1' :: '/' :: '1' :: '5' :: []) y =
      some ⟨y, 1, 15⟩ := by
  unfold strptimeMDCurYear
  simp [splitOnChar, monthField, dayField, allDigits, digitChar, digitsVal,
        mkDate, daysInMonth, h1, h2]

/-- C3 counterexample: the scenario text yields one transaction whose
category is absent, not grocery: the description matches no category
keyword. -/
theorem generic_scenario_counterexample :
    extractTransactions d0 wholefdsText "unknown" "unknown" =
      .ok [⟨⟨2025, 1, 15⟩, "WHOLEFDS ABC 12345", -50, none, none⟩] ∧
    categorizeTransaction "WHOLEFDS ABC 12345".data = none ∧
    ((none : Option String) ≠ some "grocery") :=
  ⟨by decide, by decide, by decide⟩

/-- C3 amended: on the scenario text the institution and statement
type resolve to unknown, and the generic strategy yields exactly one
transaction dated January fifteenth of the current year with the
stated description and amount minus fifty, but with no category. -/
theorem generic_scenario_amended (now : Date)
    (h1 : 1000 ≤ now.year) (h2 : now.year ≤ 9999) :
    detectInstitution wholefdsText = "unknown" ∧
    detectStatementType wholefdsText = "unknown" ∧
    extractTransactions now wholefdsText "unknown" "unknown" =
      .ok [⟨⟨now.year, 1, 15⟩, "WHOLEFDS ABC 12345", -50, none, none⟩] := by
  refine ⟨by decide, by decide, ?_⟩
  have e0 : extractTransactions now wholefdsText "unknown" "unknown" =
      .ok [⟨genericTxDate now ('0' :: '1' :: '/' :: '1' :: '5' :: []),
            "WHOLEFDS ABC 12345", -50, none, none⟩] := rfl
  rw [e0]
  have hd : genericTxDate now ('0' :: '1' :: '/' :: '1' :: '5' :: []) =
      ⟨now.year, 1, 15⟩ := by
    show (strptimeMDCurYear '/' ('0' :: '1' :: '/' :: '1' :: '5' :: [])
      now.year).getD now = _
    rw [strptime_0115 now.year h1 h2]
    rfl
  rw [hd]

/-- Witness for C3 amended at the concrete current date. -/
theorem generic_scenario_amended_witness :
    ((1000 : Int) ≤ d0.year ∧ d0.year ≤ 9999) ∧
    extractTransactions d0 wholefdsText "unknown" "unknown" =
      .ok [⟨⟨2025, 1, 15⟩, "WHOLEFDS ABC 12345", -50, none, none⟩] :=
  ⟨⟨by decide, by decide⟩,
   (generic_scenario_amended d0 (by decide) (by decide)).2.2⟩

/-! ## Claim C4 -/

/-- C4 counterexample: the masked account number patterns are not
applied regardless of the detected statement type: on a text whose
detected type is unknown, the first pattern matches and captures four
digits, yet the extracted number stays the default. -/
theorem account_info_counterexample :
    detectStatementType acctNoTypeText = "unknown" ∧
    reSearch acctPat1 acctNoTypeText.data =
      some ⟨0, 20, [(1, ['1', '2', '3', '4'])]⟩ ∧
    extractAccountInfo acctNoTypeText "unknown" (detectStatementType acctNoTypeText) =
      ⟨"Unknown", none, "unknown", "unknown"⟩ :=
  ⟨by decide, by decide, by decide⟩

/-- C4 amended: the ordered masked account number patterns are applied
only when the statement type is bank or credit card; then the first
match formats the captured four digits behind the mask, no match
defaults the number to Unknown and leaves the name absent; for every
other statement type both fields default regardless of the text. -/
theorem account_info_amended :
    (∀ (t inst ty : String), ty ≠ "bank" → ty ≠ "credit_card" →
      extractAccountInfo t inst ty = ⟨"Unknown", none, inst, ty⟩) ∧
    (∀ (t inst ty : String) (m : MatchRes),
      (ty = "bank" ∨ ty = "credit_card") →
      accountPatterns.findSome? (fun p => reSearch p t.data) = some m →
      (extractAccountInfo t inst ty).number =
        "xxxx-xxxx-xxxx-" ++ String.mk (capStr m 1)) ∧
    (∀ (t inst ty : String), (ty = "bank" ∨ ty = "credit_card") →
      accountPatterns.findSome? (fun p => reSearch p t.data) = none →
      (extractAccountInfo t inst ty).number = "Unknown") ∧
    (∀ (t inst ty : String), (ty = "bank" ∨ ty = "credit_card") →
      namePatterns.findSome? (fun p => reSearch p t.data) = none →
      (extractAccountInfo t inst ty).name = none) := by
  refine ⟨?_, ?_, ?_, ?_⟩
  · intro t inst ty hb hc
    unfold extractAccountInfo
    rw [if_neg (not_or.mpr ⟨hb, hc⟩)]
  · intro t inst ty m hty hm
    unfold extractAccountInfo
    rw [if_pos hty]
    show (match accountPatterns.findSome? (fun p => reSearch p t.data) with
      | some m => "xxxx-xxxx-xxxx-" ++ String.mk (capStr m 1)
      | none => "Unknown") = _
    rw [hm]
  · intro t inst ty hty hm
    unfold extractAccountInfo
    rw [if_pos hty]
    show (match accountPatterns.findSome? (fun p => reSearch p t.data) with
      | some m => "xxxx-xxxx-xxxx-" ++ String.mk (capStr m 1)
      | none => "Unknown") = _
    rw [hm]
  · intro t inst ty hty hm
    unfold extractAccountInfo
    rw [if_pos hty]
    show ((namePatterns.findSome? (fun p => reSearch p t.data)).map
      (fun m => String.mk (pyStrip (capStr m 1)))) = _
    rw [hm]
    rfl

/-- Witness for C4 amended at concrete inputs. -/
theorem account_info_amended_witness :
    ("investment" ≠ "bank" ∧
      extractAccountInfo acctNoTypeText "unknown" "investment" =
        ⟨"Unknown", none, "unknown", "investment"⟩) ∧
    (accountPatterns.findSome? (fun p => reSearch p acctNoTypeText.data) =
        some ⟨0, 20, [(1, ['1', '2', '3', '4'])]⟩ ∧
      (extractAccountInfo acctNoTypeText "unknown" "bank").number =
        "xxxx-xxxx-xxxx-1234") ∧
    (accountPatterns.findSome? (fun p => reSearch p "nothing".data) = none ∧
      (extractAccountInfo "nothing" "unknown" "bank").number = "Unknown" ∧
      (extractAccountInfo "nothing" "unknown" "bank").name = none) :=
  ⟨⟨by decide,
    account_info_amended.1 acctNoTypeText "unknown" "investment"
      (by decide) (by decide)⟩,
   ⟨by decide, by
      have := account_info_amended.2.1 acctNoTypeText "unknown" "bank"
        ⟨0, 20, [(1, ['1', '2', '3', '4'])]⟩ (Or.inl rfl) (by decide)
      rw [this]; decide⟩,
   ⟨by decide,
    account_info_amended.2.2.1 "nothing" "unknown" "bank" (Or.inl rfl) (by decide),
    account_info_amended.2.2.2 "nothing" "unknown" "bank" (Or.inl rfl) (by decide)⟩⟩

/-! ## Claim C5 -/

/-- C5 counterexample: a non credit card text containing a new balance
phrasing but none of the three generic phrasings does not keep the
default closing balance: the list tried for every statement type
already contains the new balance pattern, so the closing balance
becomes one hundred. -/
theorem closing_balance_counterexample :
    detectStatementType newBalanceText = "unknown" ∧
    reSearch closingBalPat1 newBalanceText.data = none ∧
    reSearch closingBalPat2 newBalanceText.data = none ∧
    reSearch closingBalPat4 newBalanceText.data = none ∧
    closingBalance newBalanceText "unknown" = .ok 100 ∧
    ((100 : Rat) ≠ 0) :=
  ⟨by decide, by decide, by decide, by decide, by decide, by decide⟩

/-- C5 amended: the closing balance list tried for every statement
type is the four-pattern base list, which already contains the new
balance phrasing; only the total balance and statement balance
phrasings, appended together with a duplicate of new balance, are
restricted to credit card statements; when no pattern of the list for
the type matches, the closing balance stays at the default zero. -/
theorem closing_balance_amended :
    (∀ ty : String, ty ≠ "credit_card" → closingPatternsFor ty =
      [closingBalPat1, closingBalPat2, closingBalPat3, closingBalPat4]) ∧
    (closingPatternsFor "credit_card" =
      [closingBalPat1, closingBalPat2, closingBalPat3, closingBalPat4,
       ccBalPatNew, ccBalPatTotal, ccBalPatStatement]) ∧
    (∀ (t : String) (ty : String),
      (∀ p ∈ closingPatternsFor ty, reSearch p t.data = none) →
      closingBalance t ty = .ok 0) ∧
    (closingBalance "Total Balance: $50.00" "bank" = .ok 0 ∧
     closingBalance "Total Balance: $50.00" "credit_card" = .ok 50 ∧
     closingBalance newBalanceText "bank" = .ok 100) := by
  refine ⟨?_, rfl, ?_, by decide, by decide, by decide⟩
  · intro ty h
    unfold closingPatternsFor
    rw [if_neg h]
    rfl
  · intro t ty h
    unfold closingBalance
    rw [List.findSome?_eq_none_iff.mpr h]

/-- Witness for C5 amended at concrete inputs. -/
theorem closing_balance_amended_witness :
    ("bank" ≠ "credit_card" ∧ closingPatternsFor "bank" =
      [closingBalPat1, closingBalPat2, closingBalPat3, closingBalPat4]) ∧
    ((∀ p ∈ closingPatternsFor "bank", reSearch p "nothing".data = none) ∧
      closingBalance "nothing" "bank" = .ok 0) :=
  ⟨⟨by decide, closing_balance_amended.1 "bank" (by decide)⟩,
   ⟨by decide, closing_balance_amended.2.2.1 "nothing" "bank" (by decide)⟩⟩

/-! ## Claim C9 -/

/-- C9 counterexample: on a text with a dash-dated line before a
slash-dated line, the generic strategy yields the slash-pass match
first: the transaction list is not ordered by position of appearance,
since the description AAA occurs at position six and BBB at position
twenty-two, yet the BBB transaction comes first. -/
theorem tx_order_counterexample :
    extractTransactions d0 mixedOrderText "unknown" "unknown" =
      .ok [⟨⟨2025, 3, 4⟩, "BBB", 2, none, none⟩,
           ⟨⟨2025, 1, 2⟩, "AAA", 1, none, none⟩] ∧
    reSearch (lit "aaa") mixedOrderText.data = some ⟨6, 3, []⟩ ∧
    reSearch (lit "bbb") mixedOrderText.data = some ⟨22, 3, []⟩ :=
  ⟨by decide, by decide, by decide⟩

/-- C9 amended: within any single pattern pass the match positions
strictly increase, so each of the three institution-specific
strategies, which run one pass, appends its transactions in order of
appearance; the generic strategy however concatenates the full
slash-date pass with the full dash-date pass, so interleaved
slash-dated and dash-dated lines can leave the output out of source
order. -/
theorem tx_order_amended :
    (∀ (r : RE) (s : List Char),
      List.Chain' (· < ·) ((finditer r s).map Prod.fst)) ∧
    (∀ (now : Date) (text : String) (inst ty : String),
      ¬(inst = "chase" ∧ ty = "credit_card") →
      ¬(inst = "bofa" ∧ ty = "bank") →
      ¬(inst = "amex" ∧ ty = "credit_card") →
      extractTransactions now text inst ty =
        .ok (genericPass now genSlashDate (txSection text.data) ++
             genericPass now genDashDate (txSection text.data))) := by
  constructor
  · intro r s
    exact finditerAux_chain r (s.length + 1) 0 s
  · intro now text inst ty h1 h2 h3
    unfold extractTransactions
    rw [if_neg h1, if_neg h2, if_neg h3]

/-- Witness for C9 amended at concrete inputs. -/
theorem tx_order_amended_witness :
    List.Chain' (· < ·) ((finditer (genTxPat genSlashDate) mixedOrderText.data).map
      Prod.fst) ∧
    (¬("unknown" = "chase" ∧ "unknown" = "credit_card") ∧
      extractTransactions d0 mixedOrderText "unknown" "unknown" =
        .ok (genericPass d0 genSlashDate (txSection mixedOrderText.data) ++
             genericPass d0 genDashDate (txSection mixedOrderText.data))) :=
  ⟨tx_order_amended.1 (genTxPat genSlashDate) mixedOrderText.data,
   ⟨by decide,
    tx_order_amended.2 d0 mixedOrderText "unknown" "unknown"
      (by decide) (by decide) (by decide)⟩⟩

end FinStat
